import Mathlib

/-!
Verification of the `pdf-reader` repository (`pdf_to_gpt_text.py`) against its
specification.

The program has three parts, all embedded below:

* `extract_text_from_pdf` — a two-stage text extractor.  The two external
  library stages (pdfplumber's text layer, pdf2image+pytesseract OCR) are
  modelled as oracles: an `Option (List String)` holding the per-page strings
  the library would return, with `none` modelling the library raising an
  exception.  The Python code's own string handling (`strip`, `join`,
  filtering empty pages, the 50-character threshold, the fallback structure)
  is translated faithfully.
* `parse_filename` — pure string manipulation, translated directly.  The
  Python string primitives `str.strip()`, `str.split(sep)`,
  `str.rsplit(".", 1)[0]` and `sep.join(xs)` are given executable list-based
  models (`py_strip`, `py_split`, `py_join`) matching Python semantics.
* the assembly loop of `main` — modelled as pure functions over a list of
  `Doc` records: the client-id resolution/warning fold (`client_scan`),
  the three `doc_type` groups, the stable ascending sort by `label`
  (Python's `list.sort` is a stable sort; it is modelled by `List.mergeSort`
  with the `≤` comparison on labels), and the rendered artifact
  (`build_final_text`).
-/

/-- Python's ASCII whitespace for `str.strip()`. -/
def py_isspace (c : Char) : Bool :=
  c == ' ' || c == '\t' || c == '\n' || c == '\r' || c == '\x0b' || c == '\x0c'

/-- Python `s.strip()`: remove leading and trailing whitespace. -/
def py_strip (s : String) : String :=
  ⟨((s.data.dropWhile py_isspace).reverse.dropWhile py_isspace).reverse⟩

/-- Python `sep.join(xs)`. -/
def py_join (sep : String) : List String → String
  | [] => ""
  | x :: xs => xs.foldl (fun acc y => acc ++ sep ++ y) x

/-- Split a character list at every occurrence of `sep`, keeping empty groups
(the behaviour of Python `s.split(sep)` for a one-character separator). -/
def split_char (sep : Char) : List Char → List (List Char)
  | [] => [[]]
  | c :: cs =>
    match split_char sep cs with
    | [] => [[]]
    | g :: gs => if c == sep then [] :: g :: gs else (c :: g) :: gs

/-- Python `s.split(sep)` for a one-character separator. -/
def py_split (s : String) (sep : Char) : List String :=
  (split_char sep s.data).map fun g => ⟨g⟩

/-- The value `text_from_text_layer` computed at lines 22–33 of
`pdf_to_gpt_text.py`: keep the pages whose stripped text is non-empty, join
them with a newline, and strip the result.  `textLayer = none` models
pdfplumber raising (the code then resets `text_chunks` to `[]`);
`textLayer = some pages` models a successful open, `pages` being the
per-page values of `page.extract_text() or ""`. -/
def text_from_text_layer (textLayer : Option (List String)) : String :=
  let text_chunks : List String :=
    match textLayer with
    | none => []
    | some pages => pages.filter (fun page_text => py_strip page_text != "")
  py_strip (py_join "\n" text_chunks)

/-- `extract_text_from_pdf` (lines 11–52 of `pdf_to_gpt_text.py`).
`ocr = none` models `convert_from_bytes`/`pytesseract` raising (the code then
returns `text_from_text_layer or ""`, which equals `text_from_text_layer`);
`ocr = some ocr_chunks` models successful OCR, `ocr_chunks` being the
per-page values of `pytesseract.image_to_string(img) or ""`. -/
def extract_text_from_pdf (textLayer ocr : Option (List String)) : String :=
  if (text_from_text_layer textLayer).length > 50 then
    text_from_text_layer textLayer
  else
    match ocr with
    | none => text_from_text_layer textLayer
    | some ocr_chunks => py_join "\n" ocr_chunks

/-- `parse_filename` (lines 55–72 of `pdf_to_gpt_text.py`).
`filename.rsplit(".", 1)[0]` is the whole string when it contains no `.`,
otherwise everything before the last `.`, i.e. the `.`-segments other than
the last one rejoined with `.`. -/
def parse_filename (filename : String) : String × String × String :=
  let ps := py_split filename '.'
  let name := if ps.length == 1 then filename else py_join "." ps.dropLast
  let parts := py_split name '_'
  if parts.length < 3 then
    ("", "unknown", name)
  else
    (parts.headD "", (parts.drop 1).headD "", py_join "_" (parts.drop 2))

/-- The filename-parsing contract as worded in the spec (§4.2): strip the
last `.`-delimited extension segment; split the remainder on `_`; with fewer
than 3 segments return `("", "unknown", stem)`, otherwise the first segment
is the client id, the second the doc type, and the remaining segments are
rejoined with `_` to form the label. -/
def parse_filename_spec (filename : String) : String × String × String :=
  let stem :=
    let ps := py_split filename '.'
    if ps.length == 1 then filename else py_join "." ps.dropLast
  match py_split stem '_' with
  | c :: t :: l0 :: ls => (c, t, py_join "_" (l0 :: ls))
  | _ => ("", "unknown", stem)

/-- One uploaded document as accumulated by `main` (lines 125–133). -/
structure Doc where
  filename : String
  client_id : String
  doc_type : String
  label : String
  text : String
deriving DecidableEq

/-- The record built for one uploaded file in the loop of `main`
(lines 111–133): metadata from `parse_filename`, text from the extractor.
The extracted text is abstracted as an input, since extraction itself is
modelled separately by `extract_text_from_pdf`. -/
def mkDoc (filename : String) (text : String) : Doc :=
  { filename := filename
    client_id := (parse_filename filename).1
    doc_type := (parse_filename filename).2.1
    label := (parse_filename filename).2.2
    text := text }

/-- The document list of one run, from the uploaded `(filename, text)` pairs
in upload order. -/
def docsOf (files : List (String × String)) : List Doc :=
  files.map fun fb => mkDoc fb.1 fb.2

/-- The warning text of line 119–121 of `pdf_to_gpt_text.py`. -/
def mixed_id_warning (g c : String) : String :=
  "Mixed client IDs detected in filenames: " ++ g ++ " and " ++ c ++ "."

/-- One step of the client-id resolution loop (lines 115–122): Python's
`if client_id and not client_id_global: ... elif client_id and
client_id_global and client_id != client_id_global: st.warning(...)`.
The state is the current `client_id_global` and the warnings issued so far. -/
def client_scan_step (acc : String × List String) (d : Doc) : String × List String :=
  if d.client_id ≠ "" ∧ acc.1 = "" then
    (d.client_id, acc.2)
  else if d.client_id ≠ "" ∧ acc.1 ≠ "" ∧ d.client_id ≠ acc.1 then
    (acc.1, acc.2 ++ [mixed_id_warning acc.1 d.client_id])
  else
    acc

/-- The client-id resolution loop over all documents, started from the empty
`client_id_global` of line 108. -/
def client_scan (docs : List Doc) : String × List String :=
  docs.foldl client_scan_step ("", [])

/-- The resolved client id after the loop (lines 135–136): the sentinel
`"UNKNOWN_CLIENT"` when no non-empty client id was seen. -/
def client_id_global (docs : List Doc) : String :=
  if (client_scan docs).1 = "" then "UNKNOWN_CLIENT" else (client_scan docs).1

/-- A closed-form model of the loop state after `client_scan`: the resolved
id is that of the first document with a non-empty `client_id` (or `""`), and
one warning is issued per later document whose non-empty `client_id` differs
from it. -/
def client_scan_model (docs : List Doc) : String × List String :=
  let g : String :=
    match docs.find? (fun d => d.client_id != "") with
    | some d => d.client_id
    | none => ""
  (g, (docs.filter fun d => d.client_id != "" && d.client_id != g).map
      (fun d => mixed_id_warning g d.client_id))

/-- The sort comparison used for `payslips.sort(key=lambda x: x["label"])`
and `statements.sort(key=lambda x: x["label"])` (lines 158–159):
plain lexicographic string comparison of the labels. -/
def label_le (a b : Doc) : Bool :=
  decide (a.label ≤ b.label)

/-- Line 154: `[d for d in docs if d["doc_type"] == "payslip"]`. -/
def payslips (docs : List Doc) : List Doc :=
  docs.filter fun d => d.doc_type == "payslip"

/-- Line 155: `[d for d in docs if d["doc_type"] == "statement"]`. -/
def statements (docs : List Doc) : List Doc :=
  docs.filter fun d => d.doc_type == "statement"

/-- Line 156: `[d for d in docs if d["doc_type"] not in ("payslip", "statement")]`. -/
def others (docs : List Doc) : List Doc :=
  docs.filter fun d => !(d.doc_type == "payslip" || d.doc_type == "statement")

/-- One rendered block (lines 161–180): two newlines, the bracketed header
with the 1-based index, label and filename, a newline, the document text and
a final newline.  `tag` is `"PAYSLIP"`, `"BANK STATEMENT"` or `"OTHER DOC"`. -/
def doc_block (tag : String) (idx : Nat) (d : Doc) : String :=
  "\n\n[" ++ tag ++ " " ++ toString idx ++ " – LABEL: " ++ d.label ++
    " – FILE: " ++ d.filename ++ "]\n" ++ d.text ++ "\n"

/-- The blocks of one group, numbered from 1 (`enumerate(..., start=1)`). -/
def doc_blocks (tag : String) (ds : List Doc) : List String :=
  (List.enumFrom 1 ds).map fun p => doc_block tag p.1 p.2

/-- The final artifact (lines 150–182): the `CLIENT_ID` header line, then the
payslip blocks sorted by label, the statement blocks sorted by label, and the
remaining blocks in upload order, all joined with `"".join`.  Python's
`list.sort` is a stable ascending sort, modelled by `List.mergeSort` with
the `≤` comparison on labels. -/
def build_final_text (g : String) (docs : List Doc) : String :=
  let structured_blocks : List String :=
    ["CLIENT_ID: " ++ g ++ "\n"]
      ++ doc_blocks "PAYSLIP" ((payslips docs).mergeSort label_le)
      ++ doc_blocks "BANK STATEMENT" ((statements docs).mergeSort label_le)
      ++ doc_blocks "OTHER DOC" (others docs)
  py_join "" structured_blocks

/-- The whole run on the uploaded `(filename, extracted text)` pairs. -/
def run_output (files : List (String × String)) : String :=
  build_final_text (client_id_global (docsOf files)) (docsOf files)

/-- The suggested download filename (line 200). -/
def download_filename (files : List (String × String)) : String :=
  client_id_global (docsOf files) ++ "_precheck_input.txt"

/-- A concrete payslip document used in witnesses. -/
def dP1 : Doc :=
  { filename := "SC_payslip_2025-03.pdf", client_id := "SC", doc_type := "payslip"
    label := "2025-03", text := "first payslip" }

/-- A second payslip with the same label as `dP1`, used in witnesses. -/
def dP2 : Doc :=
  { filename := "SC_payslip_2025-03.pdf", client_id := "SC", doc_type := "payslip"
    label := "2025-03", text := "second payslip" }

/-- A concrete statement document used in witnesses. -/
def dS1 : Doc :=
  { filename := "SC_statement_2025-03-08_2025-04-08.pdf", client_id := "SC"
    doc_type := "statement", label := "2025-03-08_2025-04-08", text := "statement text" }

/-- A concrete unclassified document used in witnesses. -/
def dO1 : Doc :=
  { filename := "randomfile.pdf", client_id := "", doc_type := "unknown"
    label := "randomfile", text := "other text" }

/-- A concrete document list used in witnesses. -/
def demo_docs : List Doc :=
  [dP1, dP2, dS1, dO1]

/-! ### Helper lemmas -/

theorem string_data_append (a b : String) : (a ++ b).data = a.data ++ b.data :=
  match a, b with
  | ⟨_⟩, ⟨_⟩ => rfl

theorem py_join_newline_fold (n : Nat) :
    ∀ acc : String,
      (List.replicate n "").foldl (fun a y => a ++ "\n" ++ y) acc =
        acc ++ ⟨List.replicate n '\n'⟩ := by
  induction n with
  | zero => intro acc; exact (String.append_empty acc).symm
  | succ n ih =>
    intro acc
    rw [List.replicate_succ]
    show (List.replicate n "").foldl (fun a y => a ++ "\n" ++ y) (acc ++ "\n" ++ "") = _
    rw [String.append_empty, ih (acc ++ "\n")]
    apply String.ext
    simp [string_data_append, List.replicate_succ]

theorem py_join_newline_empties (n : Nat) :
    py_join "\n" (List.replicate n "") = ⟨List.replicate (n - 1) '\n'⟩ := by
  cases n with
  | zero => rfl
  | succ n =>
    rw [List.replicate_succ]
    show (List.replicate n "").foldl (fun a y => a ++ "\n" ++ y) "" = _
    rw [py_join_newline_fold]
    exact String.empty_append _

/-! ### Claims about the text extractor -/

/-- C1: for every input, if the text-layer stage produces a trimmed result of
length strictly greater than 50, then `extract_text_from_pdf` returns exactly
that trimmed text-layer string, and the result does not depend on the OCR
stage at all (the OCR fallback is not executed). -/
theorem c1_text_layer_short_circuits (textLayer ocr ocr2 : Option (List String))
    (h : 50 < (text_from_text_layer textLayer).length) :
    extract_text_from_pdf textLayer ocr = text_from_text_layer textLayer ∧
    extract_text_from_pdf textLayer ocr = extract_text_from_pdf textLayer ocr2 := by
  have h1 : extract_text_from_pdf textLayer ocr = text_from_text_layer textLayer := by
    unfold extract_text_from_pdf
    rw [if_pos h]
  have h2 : extract_text_from_pdf textLayer ocr2 = text_from_text_layer textLayer := by
    unfold extract_text_from_pdf
    rw [if_pos h]
  exact ⟨h1, h1.trans h2.symm⟩

/-- Witness for C1 at a concrete 60-character text layer. -/
theorem c1_witness :
    50 < (text_from_text_layer
        (some ["aaaaaaaaaaaaaaaaaaaaaaaaaaaaaaaaaaaaaaaaaaaaaaaaaaaaaaaaaaaa"])).length ∧
    extract_text_from_pdf
        (some ["aaaaaaaaaaaaaaaaaaaaaaaaaaaaaaaaaaaaaaaaaaaaaaaaaaaaaaaaaaaa"])
        (some ["ocr page"]) =
      text_from_text_layer
        (some ["aaaaaaaaaaaaaaaaaaaaaaaaaaaaaaaaaaaaaaaaaaaaaaaaaaaaaaaaaaaa"]) :=
  ⟨by decide,
   (c1_text_layer_short_circuits
      (some ["aaaaaaaaaaaaaaaaaaaaaaaaaaaaaaaaaaaaaaaaaaaaaaaaaaaaaaaaaaaa"])
      (some ["ocr page"]) none (by decide)).1⟩

/-- C2: `extract_text_from_pdf` is a total function into `String` on every
combination of stage outcomes, including both stages failing: a text-layer
failure is treated exactly like an empty text layer, and when both stages
fail the result is the empty string — no failure propagates to the caller. -/
theorem c2_never_raises (textLayer ocr : Option (List String)) :
    (∃ s : String, extract_text_from_pdf textLayer ocr = s) ∧
    extract_text_from_pdf none ocr = extract_text_from_pdf (some []) ocr ∧
    extract_text_from_pdf none none = "" :=
  ⟨⟨_, rfl⟩, rfl, rfl⟩

/-- C3: for every input whose trimmed text-layer result has length at most
50, if the OCR stage fails, `extract_text_from_pdf` returns the text-layer
output obtained in step 1 (possibly the empty string). -/
theorem c3_ocr_failure_returns_text_layer (textLayer : Option (List String))
    (h : (text_from_text_layer textLayer).length ≤ 50) :
    extract_text_from_pdf textLayer none = text_from_text_layer textLayer := by
  unfold extract_text_from_pdf
  rw [if_neg (by omega : ¬ (text_from_text_layer textLayer).length > 50)]

/-- Witness for C3 at a concrete short text layer. -/
theorem c3_witness :
    (text_from_text_layer (some ["hi"])).length ≤ 50 ∧
    extract_text_from_pdf (some ["hi"]) none = text_from_text_layer (some ["hi"]) :=
  ⟨by decide, c3_ocr_failure_returns_text_layer (some ["hi"]) (by decide)⟩

/-- C4 counterexample: with an empty text layer and an OCR stage that
succeeds with two pages both yielding empty text, `extract_text_from_pdf`
returns `"\n"` — a non-empty, whitespace-only string — not `""` as the claim
states. -/
theorem c4_counterexample :
    (text_from_text_layer (some [])).length ≤ 50 ∧
    extract_text_from_pdf (some []) (some ["", ""]) = "\n" ∧
    ("\n" : String) ≠ "" :=
  ⟨by decide, rfl, by decide⟩

/-- C4 (amended): when the text layer stays at or below the threshold and the
OCR stage succeeds with every page yielding empty text, the function returns
the string of the newline separators alone — `pages.length - 1` newline
characters — which is the empty string exactly when there is at most one OCR
page (in particular when there are no pages). -/
theorem c4_amended_empty_pages (textLayer : Option (List String)) (pages : List String)
    (h : (text_from_text_layer textLayer).length ≤ 50)
    (hp : ∀ p ∈ pages, p = "") :
    extract_text_from_pdf textLayer (some pages) =
      ⟨List.replicate (pages.length - 1) '\n'⟩ ∧
    (extract_text_from_pdf textLayer (some pages) = "" ↔ pages.length ≤ 1) := by
  have he : extract_text_from_pdf textLayer (some pages) = py_join "\n" pages := by
    unfold extract_text_from_pdf
    rw [if_neg (by omega : ¬ (text_from_text_layer textLayer).length > 50)]
  have hj : py_join "\n" pages = ⟨List.replicate (pages.length - 1) '\n'⟩ := by
    conv_lhs => rw [List.eq_replicate_of_mem hp]
    exact py_join_newline_empties pages.length
  refine ⟨he.trans hj, ?_⟩
  rw [he, hj]
  constructor
  · intro hjoin
    have : List.replicate (pages.length - 1) '\n' = ([] : List Char) := by
      have := congrArg String.data hjoin
      simpa using this
    have := (List.replicate_eq_nil_iff '\n').mp this
    omega
  · intro hlen
    have : pages.length - 1 = 0 := by omega
    rw [this]
    rfl

/-- Witness for the amended C4 at a concrete two-empty-page OCR outcome. -/
theorem c4_amended_witness :
    extract_text_from_pdf (some []) (some ["", ""]) = ⟨List.replicate 1 '\n'⟩ ∧
    (extract_text_from_pdf (some []) (some ["", ""]) = "" ↔
      (["", ""] : List String).length ≤ 1) := by
  have h := c4_amended_empty_pages (some []) ["", ""] (by decide) (by decide)
  simpa using h

/-! ### Claims about the filename parser -/

/-- C5: `parse_filename` strips the last extension segment, splits the stem
on underscores, returns `("", "unknown", stem)` when fewer than 3 segments
result and otherwise (first segment, second segment, remaining segments
rejoined with underscores) — stated as agreement with the spec-worded
`parse_filename_spec` — and satisfies the spec's two worked examples. -/
theorem c5_parse_filename_contract (filename : String) :
    parse_filename filename = parse_filename_spec filename ∧
    parse_filename "SC_statement_2025-03-08_2025-04-08.pdf" =
      ("SC", "statement", "2025-03-08_2025-04-08") ∧
    parse_filename "randomfile.pdf" = ("", "unknown", "randomfile") := by
  refine ⟨?_, rfl, rfl⟩
  simp only [parse_filename, parse_filename_spec]
  rcases hp : py_split (if (py_split filename '.').length == 1 then filename
      else py_join "." (py_split filename '.').dropLast) '_' with
    _ | ⟨a, _ | ⟨b, _ | ⟨c, rest⟩⟩⟩ <;>
    simp [hp]

/-! ### Helper lemmas about the client-id loop -/

theorem foldl_scan_of_ne (g : String) (hg : g ≠ "") (docs : List Doc) :
    ∀ ws : List String,
      docs.foldl client_scan_step (g, ws) =
        (g, ws ++ (docs.filter fun d => d.client_id != "" && d.client_id != g).map
            (fun d => mixed_id_warning g d.client_id)) := by
  induction docs with
  | nil => intro ws; simp
  | cons d rest ih =>
    intro ws
    show rest.foldl client_scan_step (client_scan_step (g, ws) d) = _
    rw [List.filter_cons]
    by_cases h1 : d.client_id = ""
    · have hstep : client_scan_step (g, ws) d = (g, ws) := by
        simp [client_scan_step, h1]
      rw [hstep, ih ws]
      simp [h1]
    · by_cases h2 : d.client_id = g
      · have hstep : client_scan_step (g, ws) d = (g, ws) := by
          simp [client_scan_step, h1, h2, hg]
        rw [hstep, ih ws]
        simp [h2]
      · have hstep : client_scan_step (g, ws) d =
            (g, ws ++ [mixed_id_warning g d.client_id]) := by
          simp [client_scan_step, h1, h2, hg]
        rw [hstep, ih (ws ++ [mixed_id_warning g d.client_id])]
        simp [h1, h2]

theorem client_scan_eq_model (docs : List Doc) :
    client_scan docs = client_scan_model docs := by
  unfold client_scan client_scan_model
  induction docs with
  | nil => rfl
  | cons d rest ih =>
    show rest.foldl client_scan_step (client_scan_step ("", []) d) = _
    by_cases h1 : d.client_id = ""
    · have hstep : client_scan_step ("", []) d = ("", []) := by
        simp [client_scan_step, h1]
      rw [hstep, ih, List.find?_cons_of_neg _ (by simp [h1])]
      simp [List.filter_cons, h1]
    · have hstep : client_scan_step ("", []) d = (d.client_id, []) := by
        simp [client_scan_step, h1]
      rw [hstep, foldl_scan_of_ne d.client_id h1 rest [], List.find?_cons_of_pos _ (by simp [h1])]
      simp [List.filter_cons, h1]

theorem client_scan_all_empty (docs : List Doc) (h : (client_scan docs).1 = "") :
    ∀ d ∈ docs, d.client_id = "" := by
  intro d hd
  rw [client_scan_eq_model] at h
  unfold client_scan_model at h
  rcases hf : docs.find? (fun d => d.client_id != "") with _ | e
  · have := List.find?_eq_none.mp hf d hd
    simpa using this
  · rw [hf] at h
    simp only at h
    have := List.find?_some hf
    rw [h] at this
    simp at this

/-! ### Helper lemmas about empty-separator joins -/

theorem py_join_empty_fold (l : List String) :
    ∀ a b : String,
      l.foldl (fun acc y => acc ++ "" ++ y) (a ++ b) =
        a ++ l.foldl (fun acc y => acc ++ "" ++ y) b := by
  induction l with
  | nil => intro a b; rfl
  | cons z zs ih =>
    intro a b
    show zs.foldl (fun acc y => acc ++ "" ++ y) (a ++ b ++ "" ++ z) =
      a ++ zs.foldl (fun acc y => acc ++ "" ++ y) (b ++ "" ++ z)
    rw [String.append_empty, String.append_empty, String.append_assoc]
    exact ih a (b ++ z)

theorem py_join_empty_cons (x : String) (xs : List String) :
    py_join "" (x :: xs) = x ++ py_join "" xs := by
  cases xs with
  | nil => exact (String.append_empty x).symm
  | cons y ys =>
    show ys.foldl (fun acc z => acc ++ "" ++ z) (x ++ "" ++ y) =
      x ++ py_join "" (y :: ys)
    rw [String.append_empty]
    exact py_join_empty_fold ys x y

theorem py_join_empty_append (l1 l2 : List String) :
    py_join "" (l1 ++ l2) = py_join "" l1 ++ py_join "" l2 := by
  induction l1 with
  | nil => exact (String.empty_append _).symm
  | cons x xs ih =>
    rw [List.cons_append, py_join_empty_cons, ih, py_join_empty_cons, String.append_assoc]

theorem build_final_text_head (g : String) (docs : List Doc) :
    build_final_text g docs =
      ("CLIENT_ID: " ++ g ++ "\n") ++
        py_join "" (doc_blocks "PAYSLIP" ((payslips docs).mergeSort label_le)
          ++ doc_blocks "BANK STATEMENT" ((statements docs).mergeSort label_le)
          ++ doc_blocks "OTHER DOC" (others docs)) := by
  simp only [build_final_text]
  rw [List.singleton_append, List.cons_append, List.cons_append, py_join_empty_cons]

/-! ### Claims about the assembly run -/

/-- C7: the resolved `client_id_global` is the client id of the first
document in upload order whose parsed client id is non-empty, the sentinel
`"UNKNOWN_CLIENT"` when every parsed client id is empty, and the suggested
download filename is that id followed by `_precheck_input.txt`. -/
theorem c7_client_id_resolution (files : List (String × String)) :
    client_id_global (docsOf files) =
      (match (docsOf files).find? (fun d => d.client_id != "") with
       | some d => d.client_id
       | none => "UNKNOWN_CLIENT") ∧
    download_filename files = client_id_global (docsOf files) ++ "_precheck_input.txt" := by
  refine ⟨?_, rfl⟩
  unfold client_id_global
  rw [client_scan_eq_model]
  unfold client_scan_model
  rcases hf : (docsOf files).find? (fun d => d.client_id != "") with _ | e
  · simp [hf]
  · have he : e.client_id ≠ "" := by simpa using List.find?_some hf
    simp [hf, he]

/-- C8: one warning is issued for exactly each document whose parsed client
id is non-empty and differs from the resolved `client_id_global` (with the
warning text of the source), and the run still completes, producing the
artifact keyed on the resolved id. -/
theorem c8_mixed_id_warnings (files : List (String × String)) :
    (client_scan (docsOf files)).2 =
      ((docsOf files).filter fun d =>
          d.client_id != "" && d.client_id != client_id_global (docsOf files)).map
        (fun d => mixed_id_warning (client_id_global (docsOf files)) d.client_id) ∧
    ∃ rest, run_output files =
      ("CLIENT_ID: " ++ client_id_global (docsOf files) ++ "\n") ++ rest := by
  constructor
  · by_cases h : (client_scan (docsOf files)).1 = ""
    · have hall := client_scan_all_empty _ h
      have hfilAny : ∀ s : String,
          ((docsOf files).filter fun d => d.client_id != "" && d.client_id != s) = [] := by
        intro s
        rw [List.filter_eq_nil_iff]
        intro d hd
        simp [hall d hd]
      have h2 : (client_scan (docsOf files)).2 = [] := by
        rw [client_scan_eq_model]
        unfold client_scan_model
        simp only
        rw [hfilAny]
        simp
      rw [h2, hfilAny]
      simp
    · have hg : client_id_global (docsOf files) = (client_scan (docsOf files)).1 := by
        unfold client_id_global
        rw [if_neg h]
      rw [hg, client_scan_eq_model]
      simp only [client_scan_model]
  · exact ⟨_, build_final_text_head _ _⟩

/-! ### Helper lemmas about the label order and the partition -/

theorem label_le_trans (a b c : Doc) (hab : label_le a b) (hbc : label_le b c) :
    label_le a c := by
  simp only [label_le, decide_eq_true_eq] at *
  exact le_trans hab hbc

theorem label_le_total (a b : Doc) : label_le a b || label_le b a := by
  simp only [label_le, Bool.or_eq_true, decide_eq_true_eq]
  exact le_total a.label b.label

theorem partition_perm (docs : List Doc) :
    (payslips docs ++ statements docs ++ others docs).Perm docs := by
  induction docs with
  | nil => simp [payslips, statements, others]
  | cons d rest ih =>
    by_cases hp : d.doc_type = "payslip"
    · have h1 : payslips (d :: rest) = d :: payslips rest := by
        simp [payslips, List.filter_cons, hp]
      have h2 : statements (d :: rest) = statements rest := by
        simp [statements, List.filter_cons, hp]
      have h3 : others (d :: rest) = others rest := by
        simp [others, List.filter_cons, hp]
      rw [h1, h2, h3]
      exact ih.cons d
    · by_cases hs : d.doc_type = "statement"
      · have h1 : payslips (d :: rest) = payslips rest := by
          simp [payslips, List.filter_cons, hp]
        have h2 : statements (d :: rest) = d :: statements rest := by
          simp [statements, List.filter_cons, hs]
        have h3 : others (d :: rest) = others rest := by
          simp [others, List.filter_cons, hs]
        rw [h1, h2, h3, List.append_assoc]
        have ih2 : (payslips rest ++ (statements rest ++ others rest)).Perm rest := by
          rw [← List.append_assoc]
          exact ih
        exact List.Perm.trans List.perm_middle (ih2.cons d)
      · have h1 : payslips (d :: rest) = payslips rest := by
          simp [payslips, List.filter_cons, hp]
        have h2 : statements (d :: rest) = statements rest := by
          simp [statements, List.filter_cons, hs]
        have h3 : others (d :: rest) = d :: others rest := by
          simp [others, List.filter_cons, hp, hs]
        rw [h1, h2, h3]
        exact List.Perm.trans List.perm_middle (ih.cons d)

/-- C6: the rendered artifact is the `CLIENT_ID:` header line followed by a
newline, then the payslip blocks over a permutation of the payslip group
whose labels are in ascending lexicographic order, then the statement blocks
likewise, then the blocks of the remaining documents in original upload
order; block layout (two newlines before each header, one newline after each
text, numbering from 1) is fixed by `doc_block` and `doc_blocks`. -/
theorem c6_artifact_layout (g : String) (docs : List Doc) :
    ∃ pay stmt : List Doc,
      pay.Perm (payslips docs) ∧
      stmt.Perm (statements docs) ∧
      List.Pairwise (fun a b : Doc => a.label ≤ b.label) pay ∧
      List.Pairwise (fun a b : Doc => a.label ≤ b.label) stmt ∧
      build_final_text g docs =
        "CLIENT_ID: " ++ g ++ "\n"
          ++ py_join "" (doc_blocks "PAYSLIP" pay)
          ++ py_join "" (doc_blocks "BANK STATEMENT" stmt)
          ++ py_join "" (doc_blocks "OTHER DOC" (others docs)) := by
  refine ⟨(payslips docs).mergeSort label_le, (statements docs).mergeSort label_le,
    List.mergeSort_perm _ _, List.mergeSort_perm _ _, ?_, ?_, ?_⟩
  · exact (List.sorted_mergeSort label_le_trans label_le_total _).imp
      (fun hx => by simpa [label_le] using hx)
  · exact (List.sorted_mergeSort label_le_trans label_le_total _).imp
      (fun hx => by simpa [label_le] using hx)
  · rw [build_final_text_head, py_join_empty_append, py_join_empty_append,
      ← String.append_assoc, ← String.append_assoc]

/-- C9: the three `doc_type` groups partition the document list: their
concatenation is a permutation of the whole list (so each document occurs in
the artifact exactly as often as it was uploaded), every document lies in
one of the groups, and the groups are pairwise disjoint, membership being
decided solely by exact string comparison of `doc_type`. -/
theorem c9_partition (docs : List Doc) :
    (payslips docs ++ statements docs ++ others docs).Perm docs ∧
    (∀ d ∈ docs, d ∈ payslips docs ∨ d ∈ statements docs ∨ d ∈ others docs) ∧
    (∀ d : Doc,
      (d ∈ payslips docs → d ∉ statements docs ∧ d ∉ others docs) ∧
      (d ∈ statements docs → d ∉ payslips docs ∧ d ∉ others docs) ∧
      (d ∈ others docs → d ∉ payslips docs ∧ d ∉ statements docs)) := by
  refine ⟨partition_perm docs, ?_, ?_⟩
  · intro d hd
    by_cases hp : d.doc_type = "payslip"
    · exact Or.inl (List.mem_filter.mpr ⟨hd, by simp [hp]⟩)
    · by_cases hs : d.doc_type = "statement"
      · exact Or.inr (Or.inl (List.mem_filter.mpr ⟨hd, by simp [hs]⟩))
      · exact Or.inr (Or.inr (List.mem_filter.mpr ⟨hd, by simp [hp, hs]⟩))
  · intro d
    refine ⟨?_, ?_, ?_⟩
    · intro hmem
      have hp : d.doc_type = "payslip" := by
        simpa using (List.mem_filter.mp hmem).2
      refine ⟨fun hc => ?_, fun hc => ?_⟩
      · have hs : d.doc_type = "statement" := by
          simpa using (List.mem_filter.mp hc).2
        rw [hp] at hs
        simp at hs
      · have ho : d.doc_type ≠ "payslip" ∧ d.doc_type ≠ "statement" := by
          simpa [not_or] using (List.mem_filter.mp hc).2
        exact ho.1 hp
    · intro hmem
      have hs : d.doc_type = "statement" := by
        simpa using (List.mem_filter.mp hmem).2
      refine ⟨fun hc => ?_, fun hc => ?_⟩
      · have hp : d.doc_type = "payslip" := by
          simpa using (List.mem_filter.mp hc).2
        rw [hs] at hp
        simp at hp
      · have ho : d.doc_type ≠ "payslip" ∧ d.doc_type ≠ "statement" := by
          simpa [not_or] using (List.mem_filter.mp hc).2
        exact ho.2 hs
    · intro hmem
      have ho : d.doc_type ≠ "payslip" ∧ d.doc_type ≠ "statement" := by
        simpa [not_or] using (List.mem_filter.mp hmem).2
      refine ⟨fun hc => ?_, fun hc => ?_⟩
      · exact ho.1 (by simpa using (List.mem_filter.mp hc).2)
      · exact ho.2 (by simpa using (List.mem_filter.mp hc).2)

/-- Witness for C9 at a concrete run with all three document kinds. -/
theorem c9_witness :
    (payslips demo_docs ++ statements demo_docs ++ others demo_docs).Perm demo_docs ∧
    (dP1 ∈ payslips demo_docs ∨ dP1 ∈ statements demo_docs ∨ dP1 ∈ others demo_docs) ∧
    (dP1 ∈ payslips demo_docs → dP1 ∉ statements demo_docs ∧ dP1 ∉ others demo_docs) :=
  ⟨(c9_partition demo_docs).1, (c9_partition demo_docs).2.1 dP1 (by decide),
    ((c9_partition demo_docs).2.2 dP1).1⟩

/-- C10: the label sort is stable — if two documents of the payslip group
(or of the statement group) have equal labels, their original relative
order is preserved in the sorted group. -/
theorem c10_equal_labels_stable (docs : List Doc) (a b : Doc)
    (hl : a.label = b.label) :
    (List.Sublist [a, b] (payslips docs) →
      List.Sublist [a, b] ((payslips docs).mergeSort label_le)) ∧
    (List.Sublist [a, b] (statements docs) →
      List.Sublist [a, b] ((statements docs).mergeSort label_le)) := by
  have hle : label_le a b := by simp [label_le, hl]
  exact ⟨fun h => List.pair_sublist_mergeSort label_le_trans label_le_total hle h,
    fun h => List.pair_sublist_mergeSort label_le_trans label_le_total hle h⟩

/-- Witness for C10 at two concrete equal-label payslips. -/
theorem c10_witness :
    List.Sublist [dP1, dP2] (payslips demo_docs) ∧
    List.Sublist [dP1, dP2] ((payslips demo_docs).mergeSort label_le) := by
  have h := c10_equal_labels_stable demo_docs dP1 dP2 rfl
  have hs : List.Sublist [dP1, dP2] (payslips demo_docs) := by decide
  exact ⟨hs, h.1 hs⟩
